import Mathlib

/-!
Shallow embedding of `pyvisauto` (`src/pyvisauto/__init__.py`): the
`ImageMatch` search contract (`_match_template`, `find`, `find_all`,
`exists`, `wait`), random point selection for `hover`/`click`, and the
`Region`/`Match` constructors.

Modelling conventions:
* Pixel matrices and correlation score matrices are `List (List ℚ)`
  (row-major).  Similarity scores are modelled as rationals: the claims
  under study concern comparisons and coordinate arithmetic, not the
  numerics of normalised cross-correlation.
* The external collaborators (`pyautogui.screenshot`, `cv2.cvtColor`,
  `cv2.imread`, `cv2.matchTemplate`) are fields of an `Env` record;
  `cv2.imread` returns `none` on a missing/undecodable file, exactly as
  the Python function returns `None` rather than raising.
* Python exceptions become an `Err` enumeration; each constructor is
  documented with the Python exception class it models.
* Mutation of `self._captured` is explicit state passing on
  `ImageMatchState`.
-/

namespace Pyvisauto

/-- A row-major pixel or score matrix (`numpy.ndarray` of 2 dimensions). -/
abbrev Mat := List (List ℚ)

/-- The Python exception classes that the module's search code can raise.
None of them is an `OSError`/`IOError` subclass. -/
inductive Err where
  /-- `pyvisauto.FindFailed`. -/
  | findFailed : Err
  /-- `pyvisauto.VanishFailed`. -/
  | vanishFailed : Err
  /-- Python `AttributeError`: raised by `template.shape[::-1]` in
  `_match_template` when `cv2.imread` returned `None`. -/
  | attributeError : Err
  /-- `cv2.error`: raised inside the OpenCV collaborator, e.g. by
  `cv2.minMaxLoc` on an empty result matrix. -/
  | cvError : Err
  /-- Python `ValueError`: raised by `Region.__init__` on partial
  arguments. -/
  | valueError : Err
deriving DecidableEq, Repr

/-- Is the modelled Python exception an I/O error kind (an
`OSError`/`IOError` subclass)?  None of the exceptions the module can
raise is: `FindFailed`/`VanishFailed` derive from `Exception`,
`AttributeError`, `ValueError` and `cv2.error` are not `OSError`s. -/
def Err.isIOErrorKind : Err → Bool
  | .findFailed => false
  | .vanishFailed => false
  | .attributeError => false
  | .cvError => false
  | .valueError => false

/-- Decidable equality for `Except`, so that search outcomes can be
evaluated on concrete inputs. -/
instance {ε α : Type} [DecidableEq ε] [DecidableEq α] :
    DecidableEq (Except ε α)
  | Except.error e, Except.error f =>
      if h : e = f then isTrue (by rw [h])
      else isFalse (fun hc => h (Except.error.inj hc))
  | Except.error e, Except.ok b => isFalse (fun hc => Except.noConfusion hc)
  | Except.ok a, Except.error f => isFalse (fun hc => Except.noConfusion hc)
  | Except.ok a, Except.ok b =>
      if h : a = b then isTrue (by rw [h])
      else isFalse (fun hc => h (Except.ok.inj hc))

/-- The mutable per-instance state of an `ImageMatch` object: the
rectangle fields `x`, `y`, `w`, `h` and the cached grayscale capture
`_captured` (class attribute `None` until first populated). -/
structure ImageMatchState where
  x : Int
  y : Int
  w : Int
  h : Int
  captured : Option Mat
deriving DecidableEq, Repr

/-- The external collaborators used by a search, as deterministic
functions. -/
structure Env where
  /-- `pyautogui.screenshot(region=(x, y, w, h))`, as a pixel matrix. -/
  screenshot : Int → Int → Int → Int → Mat
  /-- `cv2.cvtColor(np.array(capture), cv2.COLOR_BGR2GRAY)`. -/
  cvtGray : Mat → Mat
  /-- `cv2.imread(path, cv2.IMREAD_GRAYSCALE)`; `none` models the
  Python `None` returned for a missing or undecodable file. -/
  imread : String → Option Mat
  /-- `cv2.matchTemplate(capture, template, cv2.TM_CCOEFF_NORMED)`:
  the normalised cross-correlation score matrix. -/
  matchTemplate : Mat → Mat → Mat

/-- A `pyvisauto.Match` instance: rectangle plus asset `name` and
`similarity` score.  `Match.__init__` stores its arguments unchecked. -/
structure Match where
  name : String
  x : Int
  y : Int
  w : Int
  h : Int
  similarity : ℚ
deriving DecidableEq, Repr

/-- `Match.__init__(name, x, y, w, h, similarity)`: plain field
assignment, no validation. -/
def Match.init (name : String) (x y w h : Int) (similarity : ℚ) : Match :=
  { name := name, x := x, y := y, w := w, h := h, similarity := similarity }

/-- `Region.__init__(x, y, w, h)`: all four `None` gives the full
screen `(0, 0, screenW, screenH)`; all four supplied gives exactly
those bounds; a partial supply raises
`ValueError("Parameters must be all or nothing.")`.  No validation of
the supplied values is performed.  `_captured` starts as `None`. -/
def Region.init (screenW screenH : Int) (x y w h : Option Int) :
    Except Err ImageMatchState :=
  match x, y, w, h with
  | none, none, none, none =>
      Except.ok { x := 0, y := 0, w := screenW, h := screenH, captured := none }
  | some x, some y, some w, some h =>
      Except.ok { x := x, y := y, w := w, h := h, captured := none }
  | _, _, _, _ => Except.error Err.valueError

/-! ### Score-matrix primitives (`cv2.minMaxLoc`, `numpy.where`) -/

/-- The cells of one matrix row, as `(row, col, value)` triples in
increasing column order, starting at column `c₀`. -/
def rowCellsFrom (r : Nat) : Nat → List ℚ → List (Nat × Nat × ℚ)
  | _, [] => []
  | c, v :: vs => (r, c, v) :: rowCellsFrom r (c + 1) vs

/-- All cells of a matrix, row-major, starting at row `r₀`: the order a
NumPy row-major scan (and `cv2.minMaxLoc`'s scan) visits them. -/
def cellsFrom : Nat → Mat → List (Nat × Nat × ℚ)
  | _, [] => []
  | r, row :: rest => rowCellsFrom r 0 row ++ cellsFrom (r + 1) rest

/-- All cells of a matrix in row-major scan order. -/
def cells (m : Mat) : List (Nat × Nat × ℚ) := cellsFrom 0 m

/-- `m[r][c]` when both indices are in bounds. -/
def getCell (m : Mat) (r c : Nat) : Option ℚ :=
  (m.get? r).bind fun row => row.get? c

/-- An extremum candidate tracked during `cv2.minMaxLoc`'s scan. -/
structure Extremum where
  val : ℚ
  row : Nat
  col : Nat
deriving DecidableEq, Repr

/-- One maximum-tracking step of `cv2.minMaxLoc`'s scan: the running
maximum is replaced only on a strict increase, so the first occurrence
of the maximum value is kept. -/
def maxStep (s : Extremum) (cell : Nat × Nat × ℚ) : Extremum :=
  if s.val < cell.2.2 then ⟨cell.2.2, cell.1, cell.2.1⟩ else s

/-- One minimum-tracking step of `cv2.minMaxLoc`'s scan. -/
def minStep (s : Extremum) (cell : Nat × Nat × ℚ) : Extremum :=
  if cell.2.2 < s.val then ⟨cell.2.2, cell.1, cell.2.1⟩ else s

/-- The maximum value of a matrix together with the (row, col) of its
first occurrence in row-major scan order; `none` on a matrix with no
cells (on which `cv2.minMaxLoc` raises `cv2.error`). -/
def maxExtremum (m : Mat) : Option Extremum :=
  match cells m with
  | [] => none
  | c :: cs => some (cs.foldl maxStep ⟨c.2.2, c.1, c.2.1⟩)

/-- The minimum value of a matrix together with the (row, col) of its
first occurrence. -/
def minExtremum (m : Mat) : Option Extremum :=
  match cells m with
  | [] => none
  | c :: cs => some (cs.foldl minStep ⟨c.2.2, c.1, c.2.1⟩)

/-- `cv2.minMaxLoc(m) = (min_val, max_val, min_loc, max_loc)` with the
locations as `(x = col, y = row)` points, exactly as OpenCV returns
them; `none` models the `cv2.error` raised on an empty matrix. -/
def minMaxLoc (m : Mat) : Option (ℚ × ℚ × (Nat × Nat) × (Nat × Nat)) :=
  match minExtremum m, maxExtremum m with
  | some mn, some mx => some (mn.val, mx.val, (mn.col, mn.row), (mx.col, mx.row))
  | _, _ => none

/-- `len(m)`: the number of rows (template height in `find`). -/
def matHeight (m : Mat) : Nat := m.length

/-- `len(m[0])`: the length of the first row (template width in
`find`). -/
def matWidth (m : Mat) : Nat := (m.headD []).length

/-! ### `ImageMatch._match_template` and the search operations -/

/-- `ImageMatch._match_template(target, template, cached)`.
If `template` is `None` it is loaded with `cv2.imread`; a still-`None`
template makes `template.shape[::-1]` raise `AttributeError` (before
any capture is taken).  Otherwise, unless `cached` is set and a cached
capture exists, a fresh screenshot of `(x, y, w, h)` is taken,
grayscale-converted and stored in `self._captured`; finally
`cv2.matchTemplate` runs over the capture and the template. -/
def matchTemplateRun (env : Env) (st : ImageMatchState) (target : String)
    (template : Option Mat) (cached : Bool) :
    Except Err Mat × ImageMatchState :=
  let t? : Option Mat :=
    match template with
    | some t => some t
    | none => env.imread target
  match t? with
  | none => (Except.error Err.attributeError, st)
  | some t =>
      match st.captured, cached with
      | some cap, true => (Except.ok (env.matchTemplate cap t), st)
      | _, _ =>
          let cap := env.cvtGray (env.screenshot st.x st.y st.w st.h)
          (Except.ok (env.matchTemplate cap t),
           { st with captured := some cap })

/-- The capture matrix a search uses: the cached one when `cached` is
set and one exists, a fresh grayscale screenshot otherwise. -/
def usedCapture (env : Env) (st : ImageMatchState) (cached : Bool) : Mat :=
  match st.captured, cached with
  | some cap, true => cap
  | _, _ => env.cvtGray (env.screenshot st.x st.y st.w st.h)

/-- `ImageMatch.find(target, similarity, cached)`: loads the template,
runs `_match_template`, takes `cv2.minMaxLoc` of the score matrix,
raises `FindFailed` when `max_val < similarity`, and otherwise returns
`Match(target, x + max_loc[0], y + max_loc[1], len(template[0]),
len(template), max_val)`. -/
def find (env : Env) (st : ImageMatchState) (target : String)
    (similarity : ℚ) (cached : Bool) : Except Err Match × ImageMatchState :=
  let template := env.imread target
  match matchTemplateRun env st target template cached with
  | (Except.error e, st') => (Except.error e, st')
  | (Except.ok m, st') =>
      match minMaxLoc m with
      | none => (Except.error Err.cvError, st')
      | some (_minVal, maxVal, _minLoc, maxLoc) =>
          if maxVal < similarity then (Except.error Err.findFailed, st')
          else
            match template with
            | none =>
                -- unreachable: a `None` template already raised inside
                -- `_match_template` (in Python `len(template[0])` would
                -- raise here)
                (Except.error Err.attributeError, st')
            | some t =>
                (Except.ok (Match.init target (st.x + maxLoc.1)
                  (st.y + maxLoc.2) (matWidth t) (matHeight t) maxVal), st')

/-- `ImageMatch.find_all(target, similarity, cached)`:
`np.where(matches >= similarity)` lists the qualifying `(row, col)`
indices in row-major scan order; `zip(*matches_filtered[::-1])` turns
them into `(col, row)` pairs; each becomes
`Match(target, x + col, y + row, len(template[0]), len(template),
matches[row][col])`. -/
def find_all (env : Env) (st : ImageMatchState) (target : String)
    (similarity : ℚ) (cached : Bool) :
    Except Err (List Match) × ImageMatchState :=
  let template := env.imread target
  match matchTemplateRun env st target template cached with
  | (Except.error e, st') => (Except.error e, st')
  | (Except.ok m, st') =>
      match template with
      | none =>
          -- unreachable, as in `find`
          (Except.error Err.attributeError, st')
      | some t =>
          (Except.ok (((cells m).filter
              (fun cell => decide (similarity ≤ cell.2.2))).map
            (fun cell => Match.init target (st.x + cell.2.1)
              (st.y + cell.1) (matWidth t) (matHeight t)
              (((m.get? cell.1).getD []).getD cell.2.1 0))), st')

/-- `ImageMatch.exists(target, similarity, cached)`: runs
`_match_template` (loading the template itself) and returns `False`
when `max_val < similarity`, `True` otherwise; it raises no
`FindFailed`. -/
def existsTarget (env : Env) (st : ImageMatchState) (target : String)
    (similarity : ℚ) (cached : Bool) : Except Err Bool × ImageMatchState :=
  match matchTemplateRun env st target none cached with
  | (Except.error e, st') => (Except.error e, st')
  | (Except.ok m, st') =>
      match minMaxLoc m with
      | none => (Except.error Err.cvError, st')
      | some (_minVal, maxVal, _minLoc, _maxLoc) =>
          if maxVal < similarity then (Except.ok false, st')
          else (Except.ok true, st')

/-! ### `ImageMatch.wait`

The polling loop samples `datetime.now()` as `clock 0` (`start`),
`clock 1` (the initial `now`), and `clock (2 + i)` after the `i`-th
failed attempt.  `attempt k` abstracts the outcome of the `k`-th
(always uncached) `self.find(target, similarity)` call — the screen
may change between polls.  The result is paired with the number of
`find` attempts made; `none` means the supplied fuel ran out before
the loop terminated. -/

/-- The `while (now - start).total_seconds() < wait` loop body of
`ImageMatch.wait`: on `FindFailed` the loop sleeps `SCAN_RATE` and
re-samples the clock; any other error propagates; when the condition
fails, `FindFailed(f"... after waiting for {wait} seconds.")` is
raised. -/
def waitGo (attempt : Nat → Except Err Match) (clock : Nat → ℚ)
    (waitT start : ℚ) :
    Nat → ℚ → Nat → Nat → Option (Except Err Match × Nat)
  | 0, _, _, _ => none
  | fuel + 1, now, ci, k =>
      if now - start < waitT then
        match attempt k with
        | Except.ok m => some (Except.ok m, k + 1)
        | Except.error Err.findFailed =>
            waitGo attempt clock waitT start fuel (clock ci) (ci + 1) (k + 1)
        | Except.error e => some (Except.error e, k + 1)
      else some (Except.error Err.findFailed, k)
termination_by structural fuel _ _ _ => fuel

/-- `ImageMatch.wait(target, wait, similarity)`:
`start = datetime.now(); now = datetime.now()`, then the polling
loop. -/
def wait (attempt : Nat → Except Err Match) (clock : Nat → ℚ)
    (waitT : ℚ) (fuel : Nat) : Option (Except Err Match × Nat) :=
  waitGo attempt clock waitT (clock 0) fuel (clock 1) 2 0

/-- A `click` pad tuple, CSS-style order: `pad[0]` = top, `pad[1]` =
right, `pad[2]` = bottom, `pad[3]` = left. -/
structure Pad where
  top : Int
  right : Int
  bottom : Int
  left : Int
deriving DecidableEq, Repr

/-- The contract of Python's `random.randint(a, b)`: whenever the range
is nonempty (`a ≤ b`) the result lies in the closed interval `[a, b]`
(both bounds inclusive). -/
def RandintSpec (rng : Int → Int → Int) : Prop :=
  ∀ a b : Int, a ≤ b → a ≤ rng a b ∧ rng a b ≤ b

/-- The point picked by `ImageMatch.hover`:
`(randint(x, x + w), randint(y, y + h))`. -/
def hoverPoint (rng : Int → Int → Int) (st : ImageMatchState) : Int × Int :=
  (rng st.x (st.x + st.w), rng st.y (st.y + st.h))

/-- The point picked by `ImageMatch.click`:
`(randint(x - pad[3], x + w + pad[1]), randint(y - pad[0], y + h + pad[2]))`. -/
def clickPoint (rng : Int → Int → Int) (st : ImageMatchState) (pad : Pad) :
    Int × Int :=
  (rng (st.x - pad.left) (st.x + st.w + pad.right),
   rng (st.y - pad.top) (st.y + st.h + pad.bottom))

/-! ## Lemmas about the score-matrix primitives -/

theorem mem_rowCellsFrom (r r' c' : Nat) (v : ℚ) (row : List ℚ) :
    ∀ c₀ : Nat, (r', c', v) ∈ rowCellsFrom r c₀ row ↔
      r' = r ∧ ∃ i, row.get? i = some v ∧ c' = c₀ + i := by
  induction row with
  | nil => simp [rowCellsFrom]
  | cons u us ih =>
      intro c₀
      simp only [rowCellsFrom, List.mem_cons, ih (c₀ + 1), Prod.mk.injEq]
      constructor
      · rintro (⟨rfl, rfl, rfl⟩ | ⟨rfl, i, hi, rfl⟩)
        · exact ⟨rfl, 0, rfl, rfl⟩
        · exact ⟨rfl, i + 1, by simpa using hi, by omega⟩
      · rintro ⟨rfl, i, hi, rfl⟩
        cases i with
        | zero =>
            left
            have hu : u = v := by simpa using hi
            exact ⟨rfl, by omega, hu.symm⟩
        | succ j =>
            right
            exact ⟨rfl, j, by simpa using hi, by omega⟩

theorem mem_cellsFrom (r c : Nat) (v : ℚ) (m : Mat) :
    ∀ r₀ : Nat, (r, c, v) ∈ cellsFrom r₀ m ↔
      ∃ j row, m.get? j = some row ∧ r = r₀ + j ∧ row.get? c = some v := by
  induction m with
  | nil => simp [cellsFrom]
  | cons row rest ih =>
      intro r₀
      simp only [cellsFrom, List.mem_append, mem_rowCellsFrom, ih (r₀ + 1)]
      constructor
      · rintro (⟨rfl, i, hi, rfl⟩ | ⟨j, row', hj, hr, hv⟩)
        · exact ⟨0, row, rfl, by omega, by simpa using hi⟩
        · exact ⟨j + 1, row', by simpa using hj, by omega, hv⟩
      · rintro ⟨j, row', hj, rfl, hv⟩
        cases j with
        | zero =>
            left
            refine ⟨by omega, c, ?_, by omega⟩
            obtain rfl : row = row' := by simpa using hj
            exact hv
        | succ k =>
            right
            exact ⟨k, row', by simpa using hj, by omega, hv⟩

/-- A `(row, col, value)` triple is listed by the row-major scan exactly
when indexing the matrix at `(row, col)` yields that value. -/
theorem mem_cells_iff_getCell (m : Mat) (r c : Nat) (v : ℚ) :
    (r, c, v) ∈ cells m ↔ getCell m r c = some v := by
  rw [cells, mem_cellsFrom, getCell]
  constructor
  · rintro ⟨j, row, hj, rfl, hv⟩
    simp only [Nat.zero_add] at hj ⊢
    rw [hj]
    simpa using hv
  · intro h
    rcases hrow : m.get? r with _ | row
    · rw [hrow] at h; cases h
    · rw [hrow] at h
      exact ⟨r, row, by simpa using hrow, by omega, by simpa using h⟩

theorem maxStep_val (s : Extremum) (cell : Nat × Nat × ℚ) :
    (maxStep s cell).val = max s.val cell.2.2 := by
  unfold maxStep
  split
  · rename_i h
    simp [max_eq_right (le_of_lt h)]
  · rename_i h
    simp [max_eq_left (le_of_not_lt h)]

theorem foldl_maxStep_le_val (l : List (Nat × Nat × ℚ)) :
    ∀ s : Extremum, s.val ≤ (l.foldl maxStep s).val := by
  induction l with
  | nil => intro s; simp
  | cons cell rest ih =>
      intro s
      rw [List.foldl_cons]
      refine le_trans ?_ (ih (maxStep s cell))
      rw [maxStep_val]
      exact le_max_left _ _

theorem le_foldl_maxStep (l : List (Nat × Nat × ℚ)) :
    ∀ s : Extremum, ∀ x ∈ l, x.2.2 ≤ (l.foldl maxStep s).val := by
  induction l with
  | nil => intro s x hx; cases hx
  | cons cell rest ih =>
      intro s x hx
      rw [List.foldl_cons]
      rcases List.mem_cons.1 hx with heq | hmem
      · subst heq
        refine le_trans ?_ (foldl_maxStep_le_val rest (maxStep s x))
        rw [maxStep_val]
        exact le_max_right _ _
      · exact ih (maxStep s cell) x hmem

theorem foldl_maxStep_attained (l : List (Nat × Nat × ℚ)) :
    ∀ s : Extremum, l.foldl maxStep s = s ∨
      ∃ x ∈ l, l.foldl maxStep s = ⟨x.2.2, x.1, x.2.1⟩ := by
  induction l with
  | nil => intro s; exact Or.inl rfl
  | cons cell rest ih =>
      intro s
      rw [List.foldl_cons]
      rcases ih (maxStep s cell) with h | ⟨x, hx, h⟩
      · rw [h]
        by_cases hc : s.val < cell.2.2
        · exact Or.inr ⟨cell, List.mem_cons_self _ _, by simp [maxStep, hc]⟩
        · exact Or.inl (by simp [maxStep, hc])
      · exact Or.inr ⟨x, List.mem_cons_of_mem _ hx, h⟩

/-- The maximum `cv2.minMaxLoc` reports is attained at the reported
location and dominates every cell of the matrix: it is the global
maximum of the score matrix. -/
theorem maxExtremum_spec (m : Mat) (ex : Extremum)
    (h : maxExtremum m = some ex) :
    getCell m ex.row ex.col = some ex.val ∧
    ∀ r c v, getCell m r c = some v → v ≤ ex.val := by
  unfold maxExtremum at h
  rcases hcell : cells m with _ | ⟨c0, cs⟩
  · rw [hcell] at h; cases h
  · rw [hcell] at h
    have hex : ex = cs.foldl maxStep ⟨c0.2.2, c0.1, c0.2.1⟩ :=
      (Option.some.inj h).symm
    constructor
    · rcases foldl_maxStep_attained cs ⟨c0.2.2, c0.1, c0.2.1⟩ with he | ⟨x, hx, he⟩
      · rw [hex, he]
        have hc0 : c0 ∈ cells m := by rw [hcell]; exact List.mem_cons_self _ _
        have := (mem_cells_iff_getCell m c0.1 c0.2.1 c0.2.2).1 (by simpa using hc0)
        simpa using this
      · rw [hex, he]
        have hxm : x ∈ cells m := by
          rw [hcell]; exact List.mem_cons_of_mem _ hx
        have := (mem_cells_iff_getCell m x.1 x.2.1 x.2.2).1 (by simpa using hxm)
        simpa using this
    · intro r c v hv
      have hmem : (r, c, v) ∈ cells m := (mem_cells_iff_getCell m r c v).2 hv
      rw [hcell] at hmem
      rcases List.mem_cons.1 hmem with heq | hmem
      · have : v = c0.2.2 := by
          have := congrArg (fun y => y.2.2) heq
          simpa using this
        rw [this, hex]
        exact foldl_maxStep_le_val cs ⟨c0.2.2, c0.1, c0.2.1⟩
      · rw [hex]
        exact le_foldl_maxStep cs ⟨c0.2.2, c0.1, c0.2.1⟩ (r, c, v) hmem

/-- When the matrix has a maximum, `minMaxLoc` reports it (with the
location as an `(x = col, y = row)` point). -/
theorem minMaxLoc_of_maxExtremum (m : Mat) (ex : Extremum)
    (h : maxExtremum m = some ex) :
    ∃ mn : Extremum,
      minMaxLoc m = some (mn.val, ex.val, (mn.col, mn.row), (ex.col, ex.row)) := by
  unfold maxExtremum at h
  rcases hcell : cells m with _ | ⟨c0, cs⟩
  · rw [hcell] at h; cases h
  · rw [hcell] at h
    refine ⟨cs.foldl minStep ⟨c0.2.2, c0.1, c0.2.1⟩, ?_⟩
    unfold minMaxLoc minExtremum maxExtremum
    rw [hcell]
    rw [← Option.some.inj h]

/-- `cv2.minMaxLoc` raises (`none`) exactly on a matrix with no
cells. -/
theorem minMaxLoc_eq_none_of_no_cells (m : Mat) (h : cells m = []) :
    minMaxLoc m = none := by
  unfold minMaxLoc minExtremum maxExtremum
  rw [h]

theorem getD_of_get?_some {α : Type _} (l : List α) (i : Nat) (d x : α)
    (h : l.get? i = some x) : l.getD i d = x := by
  rw [List.getD_eq_getElem?_getD, ← List.get?_eq_getElem?, h]
  rfl

/-- Row-major precedence between `(row, col, value)` cells: strictly
earlier row, or same row and strictly earlier column. -/
def cellBefore (a b : Nat × Nat × ℚ) : Prop :=
  a.1 < b.1 ∨ (a.1 = b.1 ∧ a.2.1 < b.2.1)

theorem pairwise_rowCellsFrom (r : Nat) (row : List ℚ) :
    ∀ c₀ : Nat, List.Pairwise cellBefore (rowCellsFrom r c₀ row) := by
  induction row with
  | nil => intro c₀; exact List.Pairwise.nil
  | cons u us ih =>
      intro c₀
      refine List.Pairwise.cons ?_ (ih (c₀ + 1))
      rintro ⟨r', c', v⟩ hy
      obtain ⟨rfl, i, -, rfl⟩ := (mem_rowCellsFrom r r' c' v us (c₀ + 1)).1 hy
      refine Or.inr ⟨rfl, ?_⟩
      show c₀ < c₀ + 1 + i
      omega

theorem cellsFrom_row_ge (m : Mat) :
    ∀ r₀ : Nat, ∀ x ∈ cellsFrom r₀ m, r₀ ≤ x.1 := by
  intro r₀ x hx
  obtain ⟨r, c, v⟩ := x
  obtain ⟨j, row, -, rfl, -⟩ := (mem_cellsFrom r c v m r₀).1 hx
  exact Nat.le_add_right r₀ j

/-- The row-major scan lists the cells of a matrix in strictly
increasing (row, col) lexicographic order. -/
theorem pairwise_cellsFrom (m : Mat) :
    ∀ r₀ : Nat, List.Pairwise cellBefore (cellsFrom r₀ m) := by
  induction m with
  | nil => intro r₀; exact List.Pairwise.nil
  | cons row rest ih =>
      intro r₀
      simp only [cellsFrom, List.pairwise_append]
      refine ⟨pairwise_rowCellsFrom r₀ row 0, ih (r₀ + 1), ?_⟩
      rintro ⟨r', c', v⟩ ha b hb
      obtain ⟨hr, -⟩ := (mem_rowCellsFrom r₀ r' c' v row 0).1 ha
      have hbr := cellsFrom_row_ge rest (r₀ + 1) b hb
      left
      show r' < b.1
      omega

theorem pairwise_cells (m : Mat) : List.Pairwise cellBefore (cells m) :=
  pairwise_cellsFrom m 0

/-! ## Lemmas about `_match_template` and the search operations -/

/-- Running `_match_template` with an already-loaded template: the
correlation runs over `usedCapture` and the cache field afterwards
holds exactly that capture. -/
theorem matchTemplateRun_some (env : Env) (st : ImageMatchState)
    (target : String) (t : Mat) (cached : Bool) :
    matchTemplateRun env st target (some t) cached =
      (Except.ok (env.matchTemplate (usedCapture env st cached) t),
       { st with captured := some (usedCapture env st cached) }) := by
  obtain ⟨x, y, w, h, cap?⟩ := st
  cases cap? <;> cases cached <;> simp [matchTemplateRun, usedCapture]

/-- `_match_template` with no pre-loaded template and a failing
`cv2.imread`: the `AttributeError` fires before any capture is taken,
so the state is unchanged. -/
theorem matchTemplateRun_none_imread_fails (env : Env)
    (st : ImageMatchState) (target : String) (cached : Bool)
    (him : env.imread target = none) :
    matchTemplateRun env st target none cached =
      (Except.error Err.attributeError, st) := by
  simp [matchTemplateRun, him]

/-- `_match_template` with no pre-loaded template and a successful
`cv2.imread` behaves as if the loaded template had been passed in. -/
theorem matchTemplateRun_none_imread_ok (env : Env) (st : ImageMatchState)
    (target : String) (t : Mat) (cached : Bool)
    (him : env.imread target = some t) :
    matchTemplateRun env st target none cached =
      matchTemplateRun env st target (some t) cached := by
  unfold matchTemplateRun
  rw [him]

/-- `find` when the template fails to load: `AttributeError`
propagates and the state (including the cache) is unchanged. -/
theorem find_imread_none (env : Env) (st : ImageMatchState)
    (target : String) (similarity : ℚ) (cached : Bool)
    (him : env.imread target = none) :
    find env st target similarity cached =
      (Except.error Err.attributeError, st) := by
  simp only [find, him, matchTemplateRun_none_imread_fails env st target cached him]

/-- `find_all` when the template fails to load. -/
theorem find_all_imread_none (env : Env) (st : ImageMatchState)
    (target : String) (similarity : ℚ) (cached : Bool)
    (him : env.imread target = none) :
    find_all env st target similarity cached =
      (Except.error Err.attributeError, st) := by
  simp only [find_all, him,
    matchTemplateRun_none_imread_fails env st target cached him]

/-- `exists` when the template fails to load. -/
theorem existsTarget_imread_none (env : Env) (st : ImageMatchState)
    (target : String) (similarity : ℚ) (cached : Bool)
    (him : env.imread target = none) :
    existsTarget env st target similarity cached =
      (Except.error Err.attributeError, st) := by
  simp only [existsTarget,
    matchTemplateRun_none_imread_fails env st target cached him]

/-- `find` when the score matrix has no cells: `cv2.minMaxLoc` raises
and `cv2.error` propagates. -/
theorem find_minMaxLoc_none (env : Env) (st : ImageMatchState)
    (target : String) (similarity : ℚ) (cached : Bool) (t : Mat)
    (him : env.imread target = some t)
    (hmm : minMaxLoc (env.matchTemplate (usedCapture env st cached) t) = none) :
    find env st target similarity cached =
      (Except.error Err.cvError,
       { st with captured := some (usedCapture env st cached) }) := by
  simp only [find, him, matchTemplateRun_some, hmm]

/-- `find` when the maximum score is below the threshold: `FindFailed`. -/
theorem find_below_threshold (env : Env) (st : ImageMatchState)
    (target : String) (similarity : ℚ) (cached : Bool) (t : Mat)
    (mnv mxv : ℚ) (mnl mxl : Nat × Nat)
    (him : env.imread target = some t)
    (hmm : minMaxLoc (env.matchTemplate (usedCapture env st cached) t) =
      some (mnv, mxv, mnl, mxl))
    (hlow : mxv < similarity) :
    find env st target similarity cached =
      (Except.error Err.findFailed,
       { st with captured := some (usedCapture env st cached) }) := by
  simp only [find, him, matchTemplateRun_some, hmm, if_pos hlow]

/-- `find` when the maximum score meets the threshold: the returned
`Match` is placed at region origin plus the max location, with the
template's dimensions and the maximum as similarity. -/
theorem find_meets_threshold (env : Env) (st : ImageMatchState)
    (target : String) (similarity : ℚ) (cached : Bool) (t : Mat)
    (mnv mxv : ℚ) (mnl mxl : Nat × Nat)
    (him : env.imread target = some t)
    (hmm : minMaxLoc (env.matchTemplate (usedCapture env st cached) t) =
      some (mnv, mxv, mnl, mxl))
    (hhigh : ¬ mxv < similarity) :
    find env st target similarity cached =
      (Except.ok (Match.init target (st.x + mxl.1) (st.y + mxl.2)
        (matWidth t) (matHeight t) mxv),
       { st with captured := some (usedCapture env st cached) }) := by
  simp only [find, him, matchTemplateRun_some, hmm, if_neg hhigh]

/-- `exists` when the score matrix has no cells: `cv2.error`
propagates, exactly as in `find`. -/
theorem existsTarget_minMaxLoc_none (env : Env) (st : ImageMatchState)
    (target : String) (similarity : ℚ) (cached : Bool) (t : Mat)
    (him : env.imread target = some t)
    (hmm : minMaxLoc (env.matchTemplate (usedCapture env st cached) t) = none) :
    existsTarget env st target similarity cached =
      (Except.error Err.cvError,
       { st with captured := some (usedCapture env st cached) }) := by
  simp only [existsTarget, matchTemplateRun_none_imread_ok env st target t cached him,
    matchTemplateRun_some, hmm]

/-- `exists` returns `False` (rather than raising) below the
threshold. -/
theorem existsTarget_below_threshold (env : Env) (st : ImageMatchState)
    (target : String) (similarity : ℚ) (cached : Bool) (t : Mat)
    (mnv mxv : ℚ) (mnl mxl : Nat × Nat)
    (him : env.imread target = some t)
    (hmm : minMaxLoc (env.matchTemplate (usedCapture env st cached) t) =
      some (mnv, mxv, mnl, mxl))
    (hlow : mxv < similarity) :
    existsTarget env st target similarity cached =
      (Except.ok false,
       { st with captured := some (usedCapture env st cached) }) := by
  simp only [existsTarget, matchTemplateRun_none_imread_ok env st target t cached him,
    matchTemplateRun_some, hmm, if_pos hlow]

/-- `exists` returns `True` at or above the threshold. -/
theorem existsTarget_meets_threshold (env : Env) (st : ImageMatchState)
    (target : String) (similarity : ℚ) (cached : Bool) (t : Mat)
    (mnv mxv : ℚ) (mnl mxl : Nat × Nat)
    (him : env.imread target = some t)
    (hmm : minMaxLoc (env.matchTemplate (usedCapture env st cached) t) =
      some (mnv, mxv, mnl, mxl))
    (hhigh : ¬ mxv < similarity) :
    existsTarget env st target similarity cached =
      (Except.ok true,
       { st with captured := some (usedCapture env st cached) }) := by
  simp only [existsTarget, matchTemplateRun_none_imread_ok env st target t cached him,
    matchTemplateRun_some, hmm, if_neg hhigh]

/-- `find_all` when the template loads: the result is one `Match` per
score-matrix cell passing `np.where(matches >= similarity)`, in
row-major scan order. -/
theorem find_all_imread_some (env : Env) (st : ImageMatchState)
    (target : String) (similarity : ℚ) (cached : Bool) (t : Mat)
    (him : env.imread target = some t) :
    find_all env st target similarity cached =
      (Except.ok
        (((cells (env.matchTemplate (usedCapture env st cached) t)).filter
            (fun cell => decide (similarity ≤ cell.2.2))).map
          (fun cell => Match.init target (st.x + cell.2.1) (st.y + cell.1)
            (matWidth t) (matHeight t)
            ((((env.matchTemplate (usedCapture env st cached) t).get?
                cell.1).getD []).getD cell.2.1 0))),
       { st with captured := some (usedCapture env st cached) }) := by
  simp only [find_all, him, matchTemplateRun_some]

/-- After a `find` whose template loads, the cache holds the capture
the search used — whatever the search outcome. -/
theorem find_state_after (env : Env) (st : ImageMatchState)
    (target : String) (similarity : ℚ) (cached : Bool) (t : Mat)
    (him : env.imread target = some t) :
    (find env st target similarity cached).2 =
      { st with captured := some (usedCapture env st cached) } := by
  rcases hmm : minMaxLoc (env.matchTemplate (usedCapture env st cached) t)
    with _ | ⟨mnv, mxv, mnl, mxl⟩
  · rw [find_minMaxLoc_none env st target similarity cached t him hmm]
  · by_cases hlt : mxv < similarity
    · rw [find_below_threshold env st target similarity cached t
        mnv mxv mnl mxl him hmm hlt]
    · rw [find_meets_threshold env st target similarity cached t
        mnv mxv mnl mxl him hmm hlt]

/-- After an `exists` whose template loads, the cache holds the capture
the search used. -/
theorem existsTarget_state_after (env : Env) (st : ImageMatchState)
    (target : String) (similarity : ℚ) (cached : Bool) (t : Mat)
    (him : env.imread target = some t) :
    (existsTarget env st target similarity cached).2 =
      { st with captured := some (usedCapture env st cached) } := by
  rcases hmm : minMaxLoc (env.matchTemplate (usedCapture env st cached) t)
    with _ | ⟨mnv, mxv, mnl, mxl⟩
  · rw [existsTarget_minMaxLoc_none env st target similarity cached t him hmm]
  · by_cases hlt : mxv < similarity
    · rw [existsTarget_below_threshold env st target similarity cached t
        mnv mxv mnl mxl him hmm hlt]
    · rw [existsTarget_meets_threshold env st target similarity cached t
        mnv mxv mnl mxl him hmm hlt]

/-! ## Concrete collaborator environments for explicit evaluations -/

/-- A concrete collaborator environment: 2×2 capture, 1×1 template, and
a correlation engine returning the score matrix `[[1, 3], [0, 7]]`. -/
def envW : Env :=
  { screenshot := fun _ _ _ _ => [[10, 20], [30, 40]]
    cvtGray := id
    imread := fun _ => some [[9]]
    matchTemplate := fun _ _ => [[1, 3], [0, 7]] }

/-- A concrete region state at (10, 20), size 2×2, no cached capture. -/
def stW : ImageMatchState := ⟨10, 20, 2, 2, none⟩

/-- A collaborator environment whose `cv2.imread` always fails (missing
or undecodable asset file), returning `None`. -/
def envLoadFail : Env :=
  { screenshot := fun _ _ _ _ => [[0]]
    cvtGray := id
    imread := fun _ => none
    matchTemplate := fun _ _ => [[0]] }

/-- A collaborator environment for the oversized-template edge case: a
2×1-pixel template against a 1×1-pixel capture; per the correlation
engine's contract the result for a template exceeding the source is the
degenerate empty matrix. -/
def envOversized : Env :=
  { screenshot := fun _ _ _ _ => [[0]]
    cvtGray := id
    imread := fun _ => some [[5], [5]]
    matchTemplate := fun _ _ => [] }

/-! ## Theorems about the claims -/

/-- C1: for every region and template that loads, `find` computes the
global maximum of the correlation score matrix — the value `minMaxLoc`
reports is attained at the reported cell and dominates every cell.  If
that maximum is below `similarity`, `find` raises `FindFailed`;
otherwise it returns a Match whose rectangle is `(region.x + maxCol,
region.y + maxRow, templateWidth, templateHeight)` and whose
similarity equals the maximum value. -/
theorem find_returns_global_max (env : Env) (st : ImageMatchState)
    (target : String) (similarity : ℚ) (cached : Bool) (t M : Mat)
    (ex : Extremum)
    (him : env.imread target = some t)
    (hM : M = env.matchTemplate (usedCapture env st cached) t)
    (hex : maxExtremum M = some ex) :
    getCell M ex.row ex.col = some ex.val ∧
    (∀ r c v, getCell M r c = some v → v ≤ ex.val) ∧
    (ex.val < similarity →
      (find env st target similarity cached).1 =
        Except.error Err.findFailed) ∧
    (similarity ≤ ex.val →
      (find env st target similarity cached).1 =
        Except.ok (Match.init target (st.x + ex.col) (st.y + ex.row)
          (matWidth t) (matHeight t) ex.val)) := by
  obtain ⟨hatt, hdom⟩ := maxExtremum_spec M ex hex
  obtain ⟨mn, hmm⟩ := minMaxLoc_of_maxExtremum M ex hex
  subst hM
  refine ⟨hatt, hdom, ?_, ?_⟩
  · intro hlow
    rw [find_below_threshold env st target similarity cached t mn.val ex.val
      (mn.col, mn.row) (ex.col, ex.row) him hmm hlow]
  · intro hhigh
    rw [find_meets_threshold env st target similarity cached t mn.val ex.val
      (mn.col, mn.row) (ex.col, ex.row) him hmm (not_lt.mpr hhigh)]

/-- Witness for `find_returns_global_max`: score matrix
`[[1, 3], [0, 7]]`, maximum 7 at (row 1, col 1), threshold 5, region
origin (10, 20), 1×1 template. -/
theorem find_returns_global_max_witness :
    getCell [[1, 3], [0, 7]] 1 1 = some 7 ∧
    (∀ r c v, getCell [[(1:ℚ), 3], [0, 7]] r c = some v → v ≤ (7:ℚ)) ∧
    ((7:ℚ) < 5 →
      (find envW stW "a.png" 5 false).1 = Except.error Err.findFailed) ∧
    ((5:ℚ) ≤ 7 →
      (find envW stW "a.png" 5 false).1 =
        Except.ok (Match.init "a.png" (10 + 1) (20 + 1)
          (matWidth [[9]]) (matHeight [[9]]) 7)) :=
  find_returns_global_max envW stW "a.png" 5 false [[9]] [[1, 3], [0, 7]]
    ⟨7, 1, 1⟩ rfl rfl (by decide)

/-- C2: for identical inputs (same collaborators, same state — hence
the same captured pixels — same target, similarity and cached flag),
`exists` never raises `FindFailed`; it returns `false` exactly when
`find` raises `FindFailed`; and whenever `find` returns a Match,
`exists` returns `true`. -/
theorem exists_false_iff_find_findFailed (env : Env) (st : ImageMatchState)
    (target : String) (similarity : ℚ) (cached : Bool) :
    ((existsTarget env st target similarity cached).1 ≠
      Except.error Err.findFailed) ∧
    ((existsTarget env st target similarity cached).1 = Except.ok false ↔
      (find env st target similarity cached).1 =
        Except.error Err.findFailed) ∧
    (∀ m : Match, (find env st target similarity cached).1 = Except.ok m →
      (existsTarget env st target similarity cached).1 = Except.ok true) := by
  rcases him : env.imread target with _ | t
  · rw [find_imread_none env st target similarity cached him,
      existsTarget_imread_none env st target similarity cached him]
    exact ⟨by simp, by simp, by simp⟩
  · rcases hmm : minMaxLoc (env.matchTemplate (usedCapture env st cached) t)
      with _ | ⟨mnv, mxv, mnl, mxl⟩
    · rw [find_minMaxLoc_none env st target similarity cached t him hmm,
        existsTarget_minMaxLoc_none env st target similarity cached t him hmm]
      exact ⟨by simp, by simp, by simp⟩
    · by_cases hlt : mxv < similarity
      · rw [find_below_threshold env st target similarity cached t
            mnv mxv mnl mxl him hmm hlt,
          existsTarget_below_threshold env st target similarity cached t
            mnv mxv mnl mxl him hmm hlt]
        exact ⟨by simp, by simp, by simp⟩
      · rw [find_meets_threshold env st target similarity cached t
            mnv mxv mnl mxl him hmm hlt,
          existsTarget_meets_threshold env st target similarity cached t
            mnv mxv mnl mxl him hmm hlt]
        exact ⟨by simp, by simp, by simp⟩

/-- Witness for `exists_false_iff_find_findFailed` at a concrete
environment and state. -/
theorem exists_false_iff_find_findFailed_witness :
    ((existsTarget envW stW "a.png" 5 false).1 ≠
      Except.error Err.findFailed) ∧
    ((existsTarget envW stW "a.png" 5 false).1 = Except.ok false ↔
      (find envW stW "a.png" 5 false).1 = Except.error Err.findFailed) ∧
    (∀ m : Match, (find envW stW "a.png" 5 false).1 = Except.ok m →
      (existsTarget envW stW "a.png" 5 false).1 = Except.ok true) :=
  exists_false_iff_find_findFailed envW stW "a.png" 5 false

/-- C5 counterexample: with a missing asset file, the error surfacing
from `find` is the Python `AttributeError` raised on the null
template's `.shape` access — not an I/O error kind: `cv2.imread`
swallows the underlying I/O failure and returns `None`. -/
theorem asset_load_error_is_attributeError_not_io :
    (find envLoadFail stW "missing.png" 2 false).1 =
      Except.error Err.attributeError ∧
    Err.attributeError.isIOErrorKind = false :=
  ⟨by decide, by decide⟩

/-- C5 amended: asset load failure (missing or undecodable file)
surfaces from `find`, `find_all` and `exists` as the `AttributeError`
raised on the null template — an error distinct from `FindFailed` that
propagates to the caller (never a not-found result) and propagates out
of the `wait` polling loop as well; it is, however, not an I/O error
kind. -/
theorem asset_load_failure_propagates (env : Env) (st : ImageMatchState)
    (target : String) (similarity : ℚ) (cached : Bool)
    (him : env.imread target = none) :
    (find env st target similarity cached).1 =
      Except.error Err.attributeError ∧
    (find_all env st target similarity cached).1 =
      Except.error Err.attributeError ∧
    (existsTarget env st target similarity cached).1 =
      Except.error Err.attributeError ∧
    Err.attributeError ≠ Err.findFailed ∧
    Err.attributeError.isIOErrorKind = false ∧
    (∀ (clock : Nat → ℚ) (waitT : ℚ) (fuel : Nat),
      clock 1 - clock 0 < waitT →
      wait (fun _ => (find env st target similarity cached).1) clock waitT
        (fuel + 1) = some (Except.error Err.attributeError, 1)) := by
  have hf : (find env st target similarity cached).1 =
      Except.error Err.attributeError := by
    rw [find_imread_none env st target similarity cached him]
  refine ⟨hf, ?_, ?_, by decide, by decide, ?_⟩
  · rw [find_all_imread_none env st target similarity cached him]
  · rw [existsTarget_imread_none env st target similarity cached him]
  · intro clock waitT fuel hlt
    simp only [wait, waitGo, hf, if_pos hlt]

/-- Witness for `asset_load_failure_propagates` at the concrete failing
loader. -/
theorem asset_load_failure_propagates_witness :
    (find envLoadFail stW "missing.png" 3 true).1 =
      Except.error Err.attributeError ∧
    (find_all envLoadFail stW "missing.png" 3 true).1 =
      Except.error Err.attributeError ∧
    (existsTarget envLoadFail stW "missing.png" 3 true).1 =
      Except.error Err.attributeError ∧
    Err.attributeError ≠ Err.findFailed ∧
    Err.attributeError.isIOErrorKind = false ∧
    (∀ (clock : Nat → ℚ) (waitT : ℚ) (fuel : Nat),
      clock 1 - clock 0 < waitT →
      wait (fun _ => (find envLoadFail stW "missing.png" 3 true).1) clock
        waitT (fuel + 1) = some (Except.error Err.attributeError, 1)) :=
  asset_load_failure_propagates envLoadFail stW "missing.png" 3 true rfl

/-- C6 counterexample: a 2×1-pixel template against a 1×1-pixel capture
(the template exceeds the capture in height), with the correlation
engine returning its documented degenerate empty result: `find` fails
with the OpenCV error (`cv2.minMaxLoc` on an empty matrix), not with
`FindFailed`. -/
theorem oversized_template_cvError_not_findFailed :
    (find envOversized ⟨0, 0, 1, 1, none⟩ "big.png" 2 false).1 =
      Except.error Err.cvError ∧
    Err.cvError ≠ Err.findFailed :=
  ⟨by decide, by decide⟩

/-- C6 amended: when the template exceeds the capture and the
correlation engine accordingly returns the degenerate empty score
matrix, `find` raises the OpenCV error produced by taking the extrema
of an empty matrix (`cv2.error`), not `FindFailed`: `find` has no
handling that turns this case into a not-found result. -/
theorem find_empty_correlation_cvError (env : Env) (st : ImageMatchState)
    (target : String) (similarity : ℚ) (cached : Bool) (t : Mat)
    (him : env.imread target = some t)
    (hdeg : cells (env.matchTemplate (usedCapture env st cached) t) = []) :
    (find env st target similarity cached).1 = Except.error Err.cvError := by
  rw [find_minMaxLoc_none env st target similarity cached t him
    (minMaxLoc_eq_none_of_no_cells _ hdeg)]

/-- Witness for `find_empty_correlation_cvError` at the concrete
oversized-template environment. -/
theorem find_empty_correlation_cvError_witness :
    (find envOversized ⟨0, 0, 1, 1, none⟩ "big.png" 3 false).1 =
      Except.error Err.cvError :=
  find_empty_correlation_cvError envOversized ⟨0, 0, 1, 1, none⟩ "big.png" 3
    false [[5], [5]] rfl rfl

/-- C10 counterexample: a `find` call with `cached = false` whose
template fails to load raises before any capture is taken, so it does
not overwrite the cached-capture field: the stale cache `[[7]]`
survives the call unchanged and is not the fresh grayscale capture
(`[[0]]`) that the claim says the cache must hold afterwards. -/
theorem failed_load_search_leaves_stale_cache :
    (find envLoadFail ⟨0, 0, 1, 1, some [[7]]⟩ "missing.png" 2 false).2 =
      ⟨0, 0, 1, 1, some [[7]]⟩ ∧
    some [[(7:ℚ)]] ≠
      some (envLoadFail.cvtGray (envLoadFail.screenshot 0 0 1 1)) :=
  ⟨by decide, by decide⟩

/-- C10 amended: every `find`/`find_all`/`exists` call whose template
loads, made with `cached = false` — or with `cached = true` when no
cached capture exists yet — takes a fresh capture, and afterwards the
cached-capture field holds its grayscale conversion, which is exactly
the capture that very search correlated against; a call whose template
fails to load raises before capturing and leaves the cache unchanged
(see the counterexample). -/
theorem search_overwrites_cache_with_used_capture (env : Env)
    (st : ImageMatchState) (target : String) (similarity : ℚ)
    (cached : Bool) (t : Mat)
    (him : env.imread target = some t)
    (hfresh : cached = false ∨ st.captured = none) :
    usedCapture env st cached =
      env.cvtGray (env.screenshot st.x st.y st.w st.h) ∧
    (find env st target similarity cached).2.captured =
      some (usedCapture env st cached) ∧
    (find_all env st target similarity cached).2.captured =
      some (usedCapture env st cached) ∧
    (existsTarget env st target similarity cached).2.captured =
      some (usedCapture env st cached) := by
  refine ⟨?_, ?_, ?_, ?_⟩
  · obtain ⟨x, y, w, h, cap?⟩ := st
    rcases hfresh with rfl | hnone
    · cases cap? <;> simp [usedCapture]
    · obtain rfl : cap? = none := hnone
      cases cached <;> simp [usedCapture]
  · rw [find_state_after env st target similarity cached t him]
  · rw [find_all_imread_some env st target similarity cached t him]
  · rw [existsTarget_state_after env st target similarity cached t him]

/-- Witness for `search_overwrites_cache_with_used_capture`: an
uncached `find` over `envW` stores the grayscale screenshot in the
cache. -/
theorem search_overwrites_cache_with_used_capture_witness :
    usedCapture envW stW false =
      envW.cvtGray (envW.screenshot 10 20 2 2) ∧
    (find envW stW "a.png" 5 false).2.captured =
      some (usedCapture envW stW false) ∧
    (find_all envW stW "a.png" 5 false).2.captured =
      some (usedCapture envW stW false) ∧
    (existsTarget envW stW "a.png" 5 false).2.captured =
      some (usedCapture envW stW false) :=
  search_overwrites_cache_with_used_capture envW stW "a.png" 5 false [[9]]
    rfl (Or.inl rfl)

/-- C4: `find_all` returns a Match for exactly those score-matrix cells
whose score is ≥ `similarity` — each placed at region origin plus the
cell's (col, row) offset, with the template's dimensions and carrying
that cell's score — in row-major matrix scan order (strictly
increasing (row, col)); when no cell clears the threshold it returns
the empty list rather than raising an error. -/
theorem find_all_collects_threshold_cells (env : Env)
    (st : ImageMatchState) (target : String) (similarity : ℚ)
    (cached : Bool) (t M : Mat)
    (him : env.imread target = some t)
    (hM : M = env.matchTemplate (usedCapture env st cached) t) :
    ∃ l : List Match,
      (find_all env st target similarity cached).1 = Except.ok l ∧
      (∀ mt ∈ l, ∃ r c v, getCell M r c = some v ∧ similarity ≤ v ∧
        mt = Match.init target (st.x + c) (st.y + r) (matWidth t)
          (matHeight t) v) ∧
      (∀ r c v, getCell M r c = some v → similarity ≤ v →
        Match.init target (st.x + c) (st.y + r) (matWidth t)
          (matHeight t) v ∈ l) ∧
      List.Pairwise
        (fun p q : Int × Int => p.1 < q.1 ∨ (p.1 = q.1 ∧ p.2 < q.2))
        (l.map (fun mt => (mt.y - st.y, mt.x - st.x))) ∧
      ((∀ r c v, getCell M r c = some v → v < similarity) → l = []) := by
  subst hM
  refine ⟨_, congrArg Prod.fst
    (find_all_imread_some env st target similarity cached t him),
    ?_, ?_, ?_, ?_⟩
  · intro mt hmt
    rw [List.mem_map] at hmt
    obtain ⟨⟨r, c, v⟩, hcell, rfl⟩ := hmt
    rw [List.mem_filter] at hcell
    obtain ⟨hmem, hpass⟩ := hcell
    have hget := (mem_cells_iff_getCell _ r c v).1 hmem
    have hsim : similarity ≤ v := of_decide_eq_true hpass
    refine ⟨r, c, v, hget, hsim, ?_⟩
    have hget' : ((env.matchTemplate (usedCapture env st cached) t).get?
        r).bind (fun row => row.get? c) = some v := hget
    obtain ⟨row, hr, hc⟩ := Option.bind_eq_some.mp hget'
    show Match.init target (st.x + c) (st.y + r) (matWidth t) (matHeight t)
      ((((env.matchTemplate (usedCapture env st cached) t).get? r).getD
        []).getD c 0) = _
    rw [hr, Option.getD_some, getD_of_get?_some row c 0 v hc]
  · intro r c v hget hsim
    rw [List.mem_map]
    refine ⟨(r, c, v), ?_, ?_⟩
    · rw [List.mem_filter]
      exact ⟨(mem_cells_iff_getCell _ r c v).2 hget, decide_eq_true hsim⟩
    · have hget' : ((env.matchTemplate (usedCapture env st cached) t).get?
          r).bind (fun row => row.get? c) = some v := hget
      obtain ⟨row, hr, hc⟩ := Option.bind_eq_some.mp hget'
      show Match.init target (st.x + c) (st.y + r) (matWidth t) (matHeight t)
        ((((env.matchTemplate (usedCapture env st cached) t).get? r).getD
          []).getD c 0) = _
      rw [hr, Option.getD_some, getD_of_get?_some row c 0 v hc]
  · rw [List.map_map, List.pairwise_map]
    refine List.Pairwise.imp ?_
      ((pairwise_cells _).filter
        (fun cell => decide (similarity ≤ cell.2.2)))
    rintro ⟨r₁, c₁, v₁⟩ ⟨r₂, c₂, v₂⟩ hc
    simp only [Function.comp, Match.init]
    rcases hc with h | ⟨he, h⟩
    · left
      show (st.y + (r₁:Int)) - st.y < (st.y + (r₂:Int)) - st.y
      omega
    · right
      constructor
      · show (st.y + (r₁:Int)) - st.y = (st.y + (r₂:Int)) - st.y
        have : r₁ = r₂ := he
        omega
      · show (st.x + (c₁:Int)) - st.x < (st.x + (c₂:Int)) - st.x
        have : c₁ < c₂ := h
        omega
  · intro hall
    rw [List.eq_nil_iff_forall_not_mem]
    intro mt hmt
    rw [List.mem_map] at hmt
    obtain ⟨⟨r, c, v⟩, hcell, -⟩ := hmt
    rw [List.mem_filter] at hcell
    have hget := (mem_cells_iff_getCell _ r c v).1 hcell.1
    have hsim : similarity ≤ v := of_decide_eq_true hcell.2
    exact absurd hsim (not_le.2 (hall r c v hget))

/-- Witness for `find_all_collects_threshold_cells`: score matrix
`[[1, 3], [0, 7]]`, threshold 3, region origin (10, 20), 1×1
template. -/
theorem find_all_collects_threshold_cells_witness :
    ∃ l : List Match,
      (find_all envW stW "a.png" 3 false).1 = Except.ok l ∧
      (∀ mt ∈ l, ∃ r c v,
        getCell [[(1:ℚ), 3], [0, 7]] r c = some v ∧ (3:ℚ) ≤ v ∧
        mt = Match.init "a.png" (10 + c) (20 + r) (matWidth [[9]])
          (matHeight [[9]]) v) ∧
      (∀ r c v, getCell [[(1:ℚ), 3], [0, 7]] r c = some v → (3:ℚ) ≤ v →
        Match.init "a.png" (10 + c) (20 + r) (matWidth [[9]])
          (matHeight [[9]]) v ∈ l) ∧
      List.Pairwise
        (fun p q : Int × Int => p.1 < q.1 ∨ (p.1 = q.1 ∧ p.2 < q.2))
        (l.map (fun mt => (mt.y - 20, mt.x - 10))) ∧
      ((∀ r c v, getCell [[(1:ℚ), 3], [0, 7]] r c = some v → v < 3) →
        l = []) :=
  find_all_collects_threshold_cells envW stW "a.png" 3 false [[9]]
    [[1, 3], [0, 7]] rfl rfl

/-- C7: Region construction with none of (x, y, w, h) supplied succeeds
with the full screen extent, construction with all four supplied
succeeds with exactly those bounds, and construction with some but not
all of the four supplied raises a configuration error (`ValueError`). -/
theorem region_init_all_or_nothing (screenW screenH : Int) :
    (Region.init screenW screenH none none none none =
      Except.ok
        { x := 0, y := 0, w := screenW, h := screenH, captured := none }) ∧
    (∀ x y w h : Int,
      Region.init screenW screenH (some x) (some y) (some w) (some h) =
        Except.ok { x := x, y := y, w := w, h := h, captured := none }) ∧
    (∀ x y w h : Option Int,
      (x.isSome ∨ y.isSome ∨ w.isSome ∨ h.isSome) →
      ¬(x.isSome ∧ y.isSome ∧ w.isSome ∧ h.isSome) →
      Region.init screenW screenH x y w h = Except.error Err.valueError) := by
  refine ⟨rfl, fun x y w h => rfl, ?_⟩
  rintro (_ | x) (_ | y) (_ | w) (_ | h) hsome hnotall <;>
    simp_all [Region.init]

/-- Witness for `region_init_all_or_nothing`: the partial construction
`Region(x=5, y=None, w=10, h=None)` raises `ValueError`. -/
theorem region_init_all_or_nothing_witness :
    Region.init 1920 1080 (some 5) none (some 10) none =
      Except.error Err.valueError :=
  (region_init_all_or_nothing 1920 1080).2.2 (some 5) none (some 10) none
    (Or.inl (by decide)) (by decide)

/-- C8 counterexample: `Region(0, 0, -5, -5)` constructs successfully
(no error) and the constructed Region has `w = -5`, which is not
positive — the claimed `w > 0 ∧ h > 0` construction-time invariant does
not exist in the code. -/
theorem region_init_nonpositive_succeeds :
    Region.init 1920 1080 (some 0) (some 0) (some (-5)) (some (-5)) =
      Except.ok { x := 0, y := 0, w := -5, h := -5, captured := none } ∧
    ¬ (0:Int) < -5 :=
  ⟨rfl, by decide⟩

/-- C8 amended: Region and Match construction perform no validation of
width and height; construction with arbitrary (including non-positive)
values succeeds and stores exactly the supplied values. -/
theorem region_match_init_store_unvalidated (screenW screenH x y w h : Int)
    (name : String) (s : ℚ) :
    Region.init screenW screenH (some x) (some y) (some w) (some h) =
      Except.ok { x := x, y := y, w := w, h := h, captured := none } ∧
    Match.init name x y w h s =
      { name := name, x := x, y := y, w := w, h := h, similarity := s } :=
  ⟨rfl, rfl⟩

/-- C9: whenever `random.randint` meets its contract and the padded
ranges are nonempty, the point chosen by `click` lies in the closed
ranges `x ∈ [x - pad.left, x + w + pad.right]` and
`y ∈ [y - pad.top, y + h + pad.bottom]`; in particular with
`pad = (0, 0, 0, 0)` the chosen point satisfies `x ∈ [R.x, R.x + R.w]`
and `y ∈ [R.y, R.y + R.h]`, inclusive of the far edges. -/
theorem click_point_in_padded_range (rng : Int → Int → Int)
    (st : ImageMatchState) (pad : Pad) (hrng : RandintSpec rng)
    (hx : st.x - pad.left ≤ st.x + st.w + pad.right)
    (hy : st.y - pad.top ≤ st.y + st.h + pad.bottom) :
    (st.x - pad.left ≤ (clickPoint rng st pad).1 ∧
      (clickPoint rng st pad).1 ≤ st.x + st.w + pad.right) ∧
    (st.y - pad.top ≤ (clickPoint rng st pad).2 ∧
      (clickPoint rng st pad).2 ≤ st.y + st.h + pad.bottom) ∧
    (pad = ⟨0, 0, 0, 0⟩ →
      (st.x ≤ (clickPoint rng st pad).1 ∧
        (clickPoint rng st pad).1 ≤ st.x + st.w) ∧
      (st.y ≤ (clickPoint rng st pad).2 ∧
        (clickPoint rng st pad).2 ≤ st.y + st.h)) := by
  have hxb := hrng _ _ hx
  have hyb := hrng _ _ hy
  refine ⟨hxb, hyb, ?_⟩
  rintro rfl
  simp only [clickPoint] at hxb hyb ⊢
  constructor
  · constructor
    · have := hxb.1; omega
    · have := hxb.2; omega
  · constructor
    · have := hyb.1; omega
    · have := hyb.2; omega

/-- Witness for `click_point_in_padded_range` at a concrete generator
(always the low bound), rectangle (0, 0, 3, 2) and zero pad. -/
theorem click_point_in_padded_range_witness :
    ((0:Int) - (0:Int) ≤
        (clickPoint (fun a _ => a) ⟨0, 0, 3, 2, none⟩ ⟨0, 0, 0, 0⟩).1 ∧
      (clickPoint (fun a _ => a) ⟨0, 0, 3, 2, none⟩ ⟨0, 0, 0, 0⟩).1 ≤
        0 + 3 + 0) ∧
    ((0:Int) - (0:Int) ≤
        (clickPoint (fun a _ => a) ⟨0, 0, 3, 2, none⟩ ⟨0, 0, 0, 0⟩).2 ∧
      (clickPoint (fun a _ => a) ⟨0, 0, 3, 2, none⟩ ⟨0, 0, 0, 0⟩).2 ≤
        0 + 2 + 0) ∧
    ((⟨0, 0, 0, 0⟩ : Pad) = ⟨0, 0, 0, 0⟩ →
      ((0:Int) ≤ (clickPoint (fun a _ => a) ⟨0, 0, 3, 2, none⟩ ⟨0, 0, 0, 0⟩).1 ∧
        (clickPoint (fun a _ => a) ⟨0, 0, 3, 2, none⟩ ⟨0, 0, 0, 0⟩).1 ≤ 0 + 3) ∧
      ((0:Int) ≤ (clickPoint (fun a _ => a) ⟨0, 0, 3, 2, none⟩ ⟨0, 0, 0, 0⟩).2 ∧
        (clickPoint (fun a _ => a) ⟨0, 0, 3, 2, none⟩ ⟨0, 0, 0, 0⟩).2 ≤ 0 + 2)) :=
  click_point_in_padded_range (fun a _ => a) ⟨0, 0, 3, 2, none⟩ ⟨0, 0, 0, 0⟩
    (fun a b h => ⟨le_refl a, h⟩) (by decide) (by decide)

/-- C3 counterexample: `wait(target, 0, similarity)` with a target that
is PRESENT from the very first poll (every attempt would succeed)
still makes zero `find` attempts and raises `FindFailed` — the timeout
condition is checked before the first attempt, so no search attempt
precedes the first timeout check. -/
theorem wait_zero_timeout_makes_no_attempt :
    wait (fun _ => Except.ok (Match.init "t" 0 0 1 1 1)) (fun _ => 0) 0 5 =
      some (Except.error Err.findFailed, 0) ∧ ¬ (1:Nat) ≤ 0 :=
  ⟨by unfold wait waitGo; norm_num, by decide⟩

/-- C3 amended: `wait` evaluates its timeout condition before every
attempt; whenever the initial elapsed time `clock 1 - clock 0` already
reaches the timeout — in particular for timeout 0 with a
non-decreasing clock — it makes no `find` attempt at all and raises the
timeout `FindFailed`, regardless of the attempt outcomes. -/
theorem wait_checks_timeout_before_first_attempt
    (attempt : Nat → Except Err Match) (clock : Nat → ℚ) (waitT : ℚ)
    (fuel : Nat) (h : waitT ≤ clock 1 - clock 0) (hfuel : 1 ≤ fuel) :
    wait attempt clock waitT fuel = some (Except.error Err.findFailed, 0) := by
  obtain ⟨n, rfl⟩ : ∃ n, fuel = n + 1 :=
    ⟨fuel - 1, by omega⟩
  simp only [wait, waitGo, if_neg (not_lt.mpr h)]

/-- Witness for `wait_checks_timeout_before_first_attempt`: timeout 0,
constant clock, three units of fuel. -/
theorem wait_checks_timeout_before_first_attempt_witness :
    wait (fun _ => Except.error Err.findFailed) (fun _ => 0) 0 3 =
      some (Except.error Err.findFailed, 0) :=
  wait_checks_timeout_before_first_attempt
    (fun _ => Except.error Err.findFailed) (fun _ => 0) 0 3 (by norm_num)
    (by decide)

end Pyvisauto
